import Mathlib

/-!
Shallow embedding of the firmware in
`src/sss_ornament_2023_fw/sss_ornament_2023_fw.ino` (SSS Christmas ornament
2023), together with theorems settling the specification claims about it.

Conventions of the embedding:
* C integer enums are embedded as `Nat` with named constants (the C enum
  `pano_color_t` is a plain integer type, and out-of-range values are
  representable, as the firmware's `default` switch case acknowledges).
* `uint32_t` arithmetic is `Nat` arithmetic with explicit `% 2 ^ 32`.
* Pin writes are embedded as the resulting output levels: a pin driven by
  `analogWrite(pin, d)` holds duty value `d`; `digitalWrite(pin, LOW)`
  holds `0`.
* The blocking fade loops of `pano_led_pulse` are embedded with explicit
  fuel, returning `none` when the fuel runs out before the loop exits (so
  a loop that never exits is `none` for every fuel) and `some trace`
  when the loop completes, where `trace` records the `pano_led_write`
  calls and the `delay` calls in program order.
* The C expression `PANO_LED_DUTY_CYCLE / steps` when `steps = 0` is a
  division by zero, which is undefined behaviour in C; the embedding
  returns `none` (`Option`) for it.
-/

namespace SssOrnament

/-! ## Build-time constants (from the `#define` lines of the firmware) -/

/-- Constant `#define PANO_LED_DUTY_CYCLE (70)` — 0-255 value used for analogWrite PWM. -/
def PANO_LED_DUTY_CYCLE : Nat := 70

/-- Constant `#define HOUSE_LED_CMPCLR (0x0FF)` — 12-bit house LED compare-clear value. -/
def HOUSE_LED_CMPCLR : Nat := 0x0FF

/-- Constant `#define SLEEP_TIMEOUT_MIN (15)`. -/
def SLEEP_TIMEOUT_MIN : Nat := 15

/-- Constant `#define SLEEP_TIMEOUT_MS (1000UL * 60 * SLEEP_TIMEOUT_MIN)`. -/
def SLEEP_TIMEOUT_MS : Nat := 1000 * 60 * SLEEP_TIMEOUT_MIN

/-- Modulus of `uint32_t` arithmetic (`millis()` and `start_ms`). -/
def U32 : Nat := 2 ^ 32

/-! ## The color enum `pano_color_t` (C enums are integers) -/

def PANO_COLOR_RED : Nat := 0

def PANO_COLOR_GREEN : Nat := 1

def PANO_COLOR_BLUE : Nat := 2

def PANO_COLOR_BROWN : Nat := 3

def PANO_COLOR_CYAN : Nat := 4

def PANO_COLOR_YELLOW : Nat := 5

def PANO_COLOR_COUNT : Nat := 6

/-! ## `pano_led_write` -/

/-- Output levels of the three pano LED pins (R = PA7, G = PA2, B = PA1)
after a call to `pano_led_write`. -/
structure PanoPins where
  r : Nat
  g : Nat
  b : Nat
deriving DecidableEq

/-- Embedding of `pano_led_write(color, duty_cycle)` (lines 55-92): the
switch over `color` maps each defined color to `analogWrite(duty_cycle)`
on its channel(s) and `digitalWrite(LOW)` on the rest; the `default`
case forces all three channels low. Note the code drives R and G for
brown, G and B for cyan, and R and B for yellow. -/
def pano_led_write (color : Nat) (duty_cycle : Nat) : PanoPins :=
  if color = PANO_COLOR_RED then ⟨duty_cycle, 0, 0⟩
  else if color = PANO_COLOR_GREEN then ⟨0, duty_cycle, 0⟩
  else if color = PANO_COLOR_BLUE then ⟨0, 0, duty_cycle⟩
  else if color = PANO_COLOR_BROWN then ⟨duty_cycle, duty_cycle, 0⟩
  else if color = PANO_COLOR_CYAN then ⟨0, duty_cycle, duty_cycle⟩
  else if color = PANO_COLOR_YELLOW then ⟨duty_cycle, 0, duty_cycle⟩
  else ⟨0, 0, 0⟩

/-! ## Color advance step at the bottom of `loop()` (lines 215-218) -/

/-- Statement `current_pano_color = (pano_color_t)((uint8_t)current_pano_color + 1);
if (current_pano_color == PANO_COLOR_COUNT) current_pano_color = PANO_COLOR_RED;`
The increment goes through a `uint8_t` cast, hence the `% 256`. -/
def loop_advance_color (c : Nat) : Nat :=
  if (c + 1) % 256 = PANO_COLOR_COUNT then PANO_COLOR_RED else (c + 1) % 256

/-! ## Power-state step of `loop()` (lines 199-205) and `deep_sleep` -/

/-- The persistent outputs the power controller touches: `start_ms` and
the four LED output pins. -/
structure DeviceState where
  start_ms : Nat
  ledR : Nat
  ledG : Nat
  ledB : Nat
  ledHouse : Nat
deriving DecidableEq

/-- Expression `millis() - start_ms` computed in `uint32_t` (both operands reduced
mod `2^32`, wrap-around subtraction). -/
def elapsed_ms (now start : Nat) : Nat :=
  (now % U32 + U32 - start % U32) % U32

/-- Embedding of `deep_sleep()` (lines 115-129): force all four LED
outputs low, sleep in standby until the PIR interrupt wakes the core,
then refresh `start_ms` to the time observed after wake-up (`wake_ms`;
the ISR also writes `start_ms` at the wake edge, and `deep_sleep`
overwrites it with `millis()` right after). -/
def deep_sleep (_s : DeviceState) (wake_ms : Nat) : DeviceState :=
  { start_ms := wake_ms % U32, ledR := 0, ledG := 0, ledB := 0, ledHouse := 0 }

/-- Result of one power-control step: the updated state plus whether the
step performed a sleep transition (entered low-power standby). -/
structure PowerStepResult where
  state : DeviceState
  slept : Bool
deriving DecidableEq

/-- Embedding of the power-control conditional at the top of `loop()`
(lines 199-205):
`if ((millis() - start_ms) > SLEEP_TIMEOUT_MS) { if (digitalRead(PIR_IN) == LOW) deep_sleep(); else start_ms = millis(); }`.
`now_ms` is the value of `millis()` at the check, `pir_high` the level
read from the PIR pin, `wake_ms` the time observed after a wake-up. -/
def power_step (s : DeviceState) (now_ms : Nat) (pir_high : Bool) (wake_ms : Nat) :
    PowerStepResult :=
  if SLEEP_TIMEOUT_MS < elapsed_ms now_ms s.start_ms then
    if pir_high = false then
      { state := deep_sleep s wake_ms, slept := true }
    else
      { state := { s with start_ms := now_ms % U32 }, slept := false }
  else
    { state := s, slept := false }

/-! ## `pano_led_pulse` (lines 97-113) -/

/-- One observable action of a `pano_led_pulse` loop body: a
`pano_led_write(color, new_duty)` call (the color argument is the one
passed to the pulse and constant throughout, so the trace records the
duty value) or a `delay(ms)` call. -/
inductive PulseEv where
  | write (duty : Int) : PulseEv
  | wait (ms : Nat) : PulseEv
deriving DecidableEq

/-- Local `int step_delay_ms = 10;` of `pano_led_pulse`. -/
def step_delay_ms : Nat := 10

/-- Modulus of the AVR 16-bit `int` (on the attiny target `int` is 16
bits wide). -/
def U16 : Nat := 2 ^ 16

/-- Narrowing conversion of an unsigned value to the AVR 16-bit signed
`int`: reduction mod `2^16`, reading residues at or above `2^15` as
negative (avr-gcc implements narrowing to signed types this way). -/
def toInt16 (n : Nat) : Int :=
  if n % U16 < 2 ^ 15 then ((n % U16 : Nat) : Int)
  else ((n % U16 : Nat) : Int) - (U16 : Int)

/-- Statement `int steps = on_duration_ms / step_delay_ms;` — truncating
`uint32_t` division whose result is then narrowed to the 16-bit `int`
of the target. -/
def pulse_steps (duration_ms : Nat) : Int :=
  toInt16 (duration_ms % U32 / step_delay_ms)

/-- Statement `int duty_increment = PANO_LED_DUTY_CYCLE / steps;` — C
`int` division truncating toward zero (`Int.tdiv`); when `steps = 0`
this is a division by zero (undefined behaviour in C), embedded as
`none`. -/
def pulse_increment (duration_ms : Nat) : Option Int :=
  if pulse_steps duration_ms = 0 then none
  else some (Int.tdiv (PANO_LED_DUTY_CYCLE : Int) (pulse_steps duration_ms))

/-- The ascending ramp loop
`for (int new_duty = 0; new_duty <= PANO_LED_DUTY_CYCLE; new_duty += duty_increment) { pano_led_write(color, new_duty); delay(step_delay_ms); }`
run from loop variable `duty`, with explicit fuel: `some trace` when the
loop exits within `fuel` iterations, `none` otherwise. -/
def ascLoop (fuel : Nat) (inc : Int) (duty : Int) : Option (List PulseEv) :=
  match fuel with
  | 0 => none
  | fuel + 1 =>
    if duty ≤ (PANO_LED_DUTY_CYCLE : Int) then
      (ascLoop fuel inc (duty + inc)).map
        (fun tr => PulseEv.write duty :: PulseEv.wait step_delay_ms :: tr)
    else some []

/-- The descending ramp loop
`for (int new_duty = PANO_LED_DUTY_CYCLE; new_duty >= 0; new_duty -= duty_increment) { pano_led_write(color, new_duty); delay(step_delay_ms); }`
run from loop variable `duty`, with explicit fuel. -/
def descLoop (fuel : Nat) (inc : Int) (duty : Int) : Option (List PulseEv) :=
  match fuel with
  | 0 => none
  | fuel + 1 =>
    if 0 ≤ duty then
      (descLoop fuel inc (duty - inc)).map
        (fun tr => PulseEv.write duty :: PulseEv.wait step_delay_ms :: tr)
    else some []

/-- Embedding of `pano_led_pulse(color, on_duration_ms, off_duration_ms)`:
computes the two truncated increments, runs the ascending ramp from 0
and the descending ramp from `PANO_LED_DUTY_CYCLE`, and yields the
concatenated trace of writes and delays. `none` when an increment
computation divides by zero or a ramp loop does not exit within `fuel`
iterations. -/
def pano_led_pulse (fuel : Nat) (on_duration_ms off_duration_ms : Nat) :
    Option (List PulseEv) :=
  match pulse_increment on_duration_ms, pulse_increment off_duration_ms with
  | some incUp, some incDown =>
    match ascLoop fuel incUp 0, descLoop fuel incDown (PANO_LED_DUTY_CYCLE : Int) with
    | some up, some down => some (up ++ down)
    | _, _ => none
  | _, _ => none

/-- The duty values a trace passes to `pano_led_write`, in order. -/
def writesOf (tr : List PulseEv) : List Int :=
  tr.filterMap (fun e =>
    match e with
    | PulseEv.write d => some d
    | PulseEv.wait _ => none)

/-! ## `house_led_pwm_start` (lines 153-167) -/

/-- The TCD0 / CPU registers that `house_led_pwm_start` reads or writes
(each an 8-bit hardware register, embedded as `Nat`). -/
structure TcdRegs where
  ctrla : Nat
  ctrlc : Nat
  faultctrl : Nat
  ccp : Nat
  status : Nat
deriving DecidableEq

/-- Bit masks and group values from the AVR device header (platform
header, not part of this repository): `TCD_ENABLE_bm` (CTRLA bit 0),
`TCD_CMPOVR_bm` (CTRLC bit 0), `TCD_CMPAEN_bm` (FAULTCTRL bit 4),
`TCD_ENRDY_bm` (STATUS bit 0), `CCP_IOREG_gc`. Only their identity as
distinct register/bit targets matters for the ordering claims. -/
def TCD_ENABLE_bm : Nat := 0x01

def TCD_CMPOVR_bm : Nat := 0x01

def TCD_CMPAEN_bm : Nat := 0x10

def TCD_ENRDY_bm : Nat := 0x01

def CCP_IOREG_gc : Nat := 0xD8

/-- The five operations of the body of `house_led_pwm_start`, one per
source statement. -/
inductive TcdOp where
  | clearCmpOvr : TcdOp
  | ccpUnlock : TcdOp
  | enableWOA : TcdOp
  | waitEnRdy : TcdOp
  | setTimerEnable : TcdOp
deriving DecidableEq

/-- The body of `house_led_pwm_start` as the sequence of register
operations it performs, in source order (lines 153-167):
`TCD0.CTRLC &= ~TCD_CMPOVR_bm;` then `CPU_CCP = CCP_IOREG_gc;` then
`TCD0.FAULTCTRL = TCD_CMPAEN_bm;` then
`while (!(TCD0.STATUS & TCD_ENRDY_bm)) ;` then
`TCD0.CTRLA |= TCD_ENABLE_bm;`. -/
def house_led_pwm_start_ops : List TcdOp :=
  [TcdOp.clearCmpOvr, TcdOp.ccpUnlock, TcdOp.enableWOA,
   TcdOp.waitEnRdy, TcdOp.setTimerEnable]

/-- Effect of one operation on the registers. The busy-wait succeeds
(and changes nothing) when the hardware reports enable-ready, and hangs
forever (`none`) otherwise — the status register is hardware-driven and
the firmware treats readiness as a hardware-correctness precondition. -/
def tcd_step (s : TcdRegs) : TcdOp → Option TcdRegs
  | TcdOp.clearCmpOvr => some { s with ctrlc := s.ctrlc &&& (0xFF ^^^ TCD_CMPOVR_bm) }
  | TcdOp.ccpUnlock => some { s with ccp := CCP_IOREG_gc }
  | TcdOp.enableWOA => some { s with faultctrl := TCD_CMPAEN_bm }
  | TcdOp.waitEnRdy => if s.status &&& TCD_ENRDY_bm ≠ 0 then some s else none
  | TcdOp.setTimerEnable => some { s with ctrla := s.ctrla ||| TCD_ENABLE_bm }

/-- Run a sequence of operations, returning the trace of register states
after each operation (`none` if some operation hangs). -/
def tcd_run (s : TcdRegs) : List TcdOp → Option (List TcdRegs)
  | [] => some []
  | op :: ops =>
    match tcd_step s op with
    | none => none
    | some s1 => (tcd_run s1 ops).map (fun tr => s1 :: tr)

/-- The trace `pano_led_pulse(color, 200, 200)` actually produces:
24 ascending writes 0, 3, ..., 69 and 24 descending writes 70, 67, ...,
1, each write followed by a 10 ms delay. -/
def pulse200Trace : List PulseEv :=
  ((List.range 24).flatMap fun n => [PulseEv.write (3 * (n : Int)), PulseEv.wait 10]) ++
  ((List.range 24).flatMap fun n => [PulseEv.write (70 - 3 * (n : Int)), PulseEv.wait 10])

/-! ## Helper lemmas about the ramp loops -/

theorem ascLoop_zero_fuel (inc : Int) (d : Int) : ascLoop 0 inc d = none := rfl

theorem descLoop_zero_fuel (inc : Int) (d : Int) : descLoop 0 inc d = none := rfl

theorem ascLoop_succ (fuel : Nat) (inc : Int) (d : Int) :
    ascLoop (fuel + 1) inc d =
      if d ≤ (PANO_LED_DUTY_CYCLE : Int) then
        (ascLoop fuel inc (d + inc)).map
          (fun tr => PulseEv.write d :: PulseEv.wait step_delay_ms :: tr)
      else some [] := rfl

theorem descLoop_succ (fuel : Nat) (inc : Int) (d : Int) :
    descLoop (fuel + 1) inc d =
      if 0 ≤ d then
        (descLoop fuel inc (d - inc)).map
          (fun tr => PulseEv.write d :: PulseEv.wait step_delay_ms :: tr)
      else some [] := rfl

/-- With a nonpositive increment the ascending loop never advances its
loop variable past the guard, so from any duty within the guard it
never exits. -/
theorem ascLoop_inc_nonpos (fuel : Nat) (inc : Int) (hinc : inc ≤ 0) (d : Int)
    (hd : d ≤ (PANO_LED_DUTY_CYCLE : Int)) : ascLoop fuel inc d = none := by
  induction fuel generalizing d with
  | zero => rfl
  | succ f ih =>
    rw [ascLoop_succ, if_pos hd]
    rw [ih (d + inc) (by omega)]
    rfl

/-- With a zero increment the ascending loop never advances its loop
variable, so from any duty within the guard it never exits. -/
theorem ascLoop_inc_zero (fuel : Nat) (d : Int)
    (hd : d ≤ (PANO_LED_DUTY_CYCLE : Int)) : ascLoop fuel 0 d = none :=
  ascLoop_inc_nonpos fuel 0 (le_refl 0) d hd

/-- With a nonpositive increment the descending loop never advances its
loop variable past the guard, so from any duty within the guard it
never exits. -/
theorem descLoop_inc_nonpos (fuel : Nat) (inc : Int) (hinc : inc ≤ 0) (d : Int)
    (hd : 0 ≤ d) : descLoop fuel inc d = none := by
  induction fuel generalizing d with
  | zero => rfl
  | succ f ih =>
    rw [descLoop_succ, if_pos hd]
    rw [ih (d - inc) (by omega)]
    rfl

/-- With a zero increment the descending loop never advances its loop
variable, so from any duty within the guard it never exits. -/
theorem descLoop_inc_zero (fuel : Nat) (d : Int) (hd : 0 ≤ d) :
    descLoop fuel 0 d = none :=
  descLoop_inc_nonpos fuel 0 (le_refl 0) d hd

/-- With a positive increment the ascending loop exits once the fuel
exceeds the remaining distance to the guard bound. -/
theorem ascLoop_isSome (inc : Int) (hinc : 0 < inc) :
    ∀ (fuel : Nat) (d : Int), (PANO_LED_DUTY_CYCLE : Int) - d < fuel →
      (ascLoop (fuel + 1) inc d).isSome := by
  intro fuel
  induction fuel with
  | zero =>
    intro d hd
    rw [ascLoop_succ, if_neg (by simp [PANO_LED_DUTY_CYCLE] at hd ⊢; omega)]
    rfl
  | succ f ih =>
    intro d hd
    rw [ascLoop_succ]
    by_cases hg : d ≤ (PANO_LED_DUTY_CYCLE : Int)
    · rw [if_pos hg, Option.isSome_map']
      exact ih (d + inc) (by simp [PANO_LED_DUTY_CYCLE] at hd ⊢; omega)
    · rw [if_neg hg]
      rfl

/-- With a positive increment the descending loop exits once the fuel
exceeds the current duty. -/
theorem descLoop_isSome (inc : Int) (hinc : 0 < inc) :
    ∀ (fuel : Nat) (d : Int), d < fuel → (descLoop (fuel + 1) inc d).isSome := by
  intro fuel
  induction fuel with
  | zero =>
    intro d hd
    rw [descLoop_succ, if_neg (by omega)]
    rfl
  | succ f ih =>
    intro d hd
    rw [descLoop_succ]
    by_cases hg : 0 ≤ d
    · rw [if_pos hg, Option.isSome_map']
      exact ih (d - inc) (by omega)
    · rw [if_neg hg]
      rfl

/-- Adding fuel does not change the trace of a completed ascending loop. -/
theorem ascLoop_mono :
    ∀ (f f' : Nat) (inc : Int) (d : Int) (tr : List PulseEv), f ≤ f' →
      ascLoop f inc d = some tr → ascLoop f' inc d = some tr := by
  intro f
  induction f with
  | zero => intro f' inc d tr _ h; exact absurd h (by simp [ascLoop_zero_fuel])
  | succ f ih =>
    intro f' inc d tr hle h
    obtain ⟨f'', rfl⟩ : ∃ f'', f' = f'' + 1 := by
      cases f' with
      | zero => omega
      | succ k => exact ⟨k, rfl⟩
    rw [ascLoop_succ] at h ⊢
    by_cases hg : d ≤ (PANO_LED_DUTY_CYCLE : Int)
    · rw [if_pos hg] at h ⊢
      obtain ⟨tr0, htr0, rfl⟩ := Option.map_eq_some'.mp h
      rw [ih f'' inc (d + inc) tr0 (by omega) htr0]
      rfl
    · rw [if_neg hg] at h ⊢
      exact h

/-- Adding fuel does not change the trace of a completed descending loop. -/
theorem descLoop_mono :
    ∀ (f f' : Nat) (inc : Int) (d : Int) (tr : List PulseEv), f ≤ f' →
      descLoop f inc d = some tr → descLoop f' inc d = some tr := by
  intro f
  induction f with
  | zero => intro f' inc d tr _ h; exact absurd h (by simp [descLoop_zero_fuel])
  | succ f ih =>
    intro f' inc d tr hle h
    obtain ⟨f'', rfl⟩ : ∃ f'', f' = f'' + 1 := by
      cases f' with
      | zero => omega
      | succ k => exact ⟨k, rfl⟩
    rw [descLoop_succ] at h ⊢
    by_cases hg : 0 ≤ d
    · rw [if_pos hg] at h ⊢
      obtain ⟨tr0, htr0, rfl⟩ := Option.map_eq_some'.mp h
      rw [ih f'' inc (d - inc) tr0 (by omega) htr0]
      rfl
    · rw [if_neg hg] at h ⊢
      exact h

/-- Two completed runs of the ascending loop agree, whatever their fuel. -/
theorem ascLoop_det (f f' : Nat) (inc : Int) (d : Int) (tr tr' : List PulseEv)
    (h : ascLoop f inc d = some tr) (h' : ascLoop f' inc d = some tr') :
    tr = tr' := by
  rcases le_total f f' with hle | hle
  · have := ascLoop_mono f f' inc d tr hle h
    rw [this] at h'
    exact Option.some.inj h'
  · have := ascLoop_mono f' f inc d tr' hle h'
    rw [this] at h
    exact (Option.some.inj h).symm

/-- Two completed runs of the descending loop agree, whatever their fuel. -/
theorem descLoop_det (f f' : Nat) (inc : Int) (d : Int) (tr tr' : List PulseEv)
    (h : descLoop f inc d = some tr) (h' : descLoop f' inc d = some tr') :
    tr = tr' := by
  rcases le_total f f' with hle | hle
  · have := descLoop_mono f f' inc d tr hle h
    rw [this] at h'
    exact Option.some.inj h'
  · have := descLoop_mono f' f inc d tr' hle h'
    rw [this] at h
    exact (Option.some.inj h).symm

/-- Every duty the ascending loop writes lies between the starting duty
and the guard bound `PANO_LED_DUTY_CYCLE`. -/
theorem ascLoop_writes_bound :
    ∀ (fuel : Nat) (inc : Int) (d : Int) (tr : List PulseEv), 0 ≤ inc →
      ascLoop fuel inc d = some tr →
      ∀ x ∈ writesOf tr, d ≤ x ∧ x ≤ (PANO_LED_DUTY_CYCLE : Int) := by
  intro fuel
  induction fuel with
  | zero => intro inc d tr _ h; exact absurd h (by simp [ascLoop_zero_fuel])
  | succ f ih =>
    intro inc d tr hinc h x hx
    rw [ascLoop_succ] at h
    by_cases hg : d ≤ (PANO_LED_DUTY_CYCLE : Int)
    · rw [if_pos hg] at h
      obtain ⟨tr0, htr0, rfl⟩ := Option.map_eq_some'.mp h
      simp only [writesOf, List.filterMap_cons] at hx
      simp only [writesOf] at ih
      rcases List.mem_cons.mp hx with rfl | hx0
      · exact ⟨le_refl x, hg⟩
      · obtain ⟨h1, h2⟩ := ih inc (d + inc) tr0 hinc htr0 x hx0
        exact ⟨by omega, h2⟩
    · rw [if_neg hg] at h
      cases Option.some.inj h
      simp [writesOf] at hx


/-- Every duty the descending loop writes lies between 0 and the
starting duty. -/
theorem descLoop_writes_bound :
    ∀ (fuel : Nat) (inc : Int) (d : Int) (tr : List PulseEv), 0 ≤ inc →
      descLoop fuel inc d = some tr →
      ∀ x ∈ writesOf tr, 0 ≤ x ∧ x ≤ d := by
  intro fuel
  induction fuel with
  | zero => intro inc d tr _ h; exact absurd h (by simp [descLoop_zero_fuel])
  | succ f ih =>
    intro inc d tr hinc h x hx
    rw [descLoop_succ] at h
    by_cases hg : 0 ≤ d
    · rw [if_pos hg] at h
      obtain ⟨tr0, htr0, rfl⟩ := Option.map_eq_some'.mp h
      simp only [writesOf, List.filterMap_cons] at hx
      simp only [writesOf] at ih
      rcases List.mem_cons.mp hx with rfl | hx0
      · exact ⟨hg, le_refl x⟩
      · obtain ⟨h1, h2⟩ := ih inc (d - inc) tr0 hinc htr0 x hx0
        exact ⟨h1, by omega⟩
    · rw [if_neg hg] at h
      cases Option.some.inj h
      simp [writesOf] at hx

/-- Lemma: `pano_led_pulse` completes exactly when both increment computations
are defined and both ramp loops exit; unfolding lemma for the success
case. -/
theorem pano_led_pulse_eq_some (fuel on_ms off_ms : Nat) (incUp incDown : Int)
    (hu : pulse_increment on_ms = some incUp)
    (hd : pulse_increment off_ms = some incDown)
    (up down : List PulseEv)
    (hup : ascLoop fuel incUp 0 = some up)
    (hdown : descLoop fuel incDown (PANO_LED_DUTY_CYCLE : Int) = some down) :
    pano_led_pulse fuel on_ms off_ms = some (up ++ down) := by
  unfold pano_led_pulse
  simp only [hu, hd, hup, hdown]

/-- If `pano_led_pulse` completes, both increments were defined and both
loops completed. -/
theorem pano_led_pulse_isSome_inv (fuel on_ms off_ms : Nat)
    (h : (pano_led_pulse fuel on_ms off_ms).isSome) :
    ∃ incUp incDown up down,
      pulse_increment on_ms = some incUp ∧
      pulse_increment off_ms = some incDown ∧
      ascLoop fuel incUp 0 = some up ∧
      descLoop fuel incDown (PANO_LED_DUTY_CYCLE : Int) = some down ∧
      pano_led_pulse fuel on_ms off_ms = some (up ++ down) := by
  unfold pano_led_pulse at h
  rcases hu : pulse_increment on_ms with _ | incUp
  · rw [hu] at h; simp at h
  rcases hd : pulse_increment off_ms with _ | incDown
  · rw [hu, hd] at h; simp at h
  rw [hu, hd] at h
  rcases hup : ascLoop fuel incUp 0 with _ | up
  · simp only [hup] at h; simp at h
  rcases hdown : descLoop fuel incDown (PANO_LED_DUTY_CYCLE : Int) with _ | down
  · simp only [hup, hdown] at h; simp at h
  exact ⟨incUp, incDown, up, down, rfl, rfl, hup, hdown,
    pano_led_pulse_eq_some fuel on_ms off_ms incUp incDown hu hd up down hup hdown⟩

/-- Narrowing fidelity of the step count: at 655360 ms the `uint32_t`
quotient 65536 narrows to `int` value 0, so the increment computation
divides by zero although the duration is far above 10 ms; at 327680 ms
the narrowed step count is -32768 and the increment truncates to 0
(toward zero), a defined but degenerate value. -/
theorem pulse_steps_wrap :
    pulse_steps 655360 = 0 ∧ pulse_increment 655360 = none ∧
    pulse_steps 327680 = -32768 ∧ pulse_increment 327680 = some 0 := by
  decide

/-! ## Claim theorems -/

/-- Claim C3: for every duty value, each of the six defined colors
drives exactly the channels the code assigns it — one channel for the
primary colors red/green/blue, two channels at equal duty for the
composite colors brown/cyan/yellow — and forces every unused channel
low; any color value outside the six defined colors forces all three
channels low. -/
theorem pano_led_write_channels (d : Nat) :
    pano_led_write PANO_COLOR_RED d = ⟨d, 0, 0⟩ ∧
    pano_led_write PANO_COLOR_GREEN d = ⟨0, d, 0⟩ ∧
    pano_led_write PANO_COLOR_BLUE d = ⟨0, 0, d⟩ ∧
    pano_led_write PANO_COLOR_BROWN d = ⟨d, d, 0⟩ ∧
    pano_led_write PANO_COLOR_CYAN d = ⟨0, d, d⟩ ∧
    pano_led_write PANO_COLOR_YELLOW d = ⟨d, 0, d⟩ ∧
    ∀ c : Nat, PANO_COLOR_COUNT ≤ c → pano_led_write c d = ⟨0, 0, 0⟩ := by
  refine ⟨rfl, rfl, rfl, rfl, rfl, rfl, ?_⟩
  intro c hc
  simp only [PANO_COLOR_COUNT] at hc
  unfold pano_led_write
  rw [if_neg (by simp only [PANO_COLOR_RED]; omega),
    if_neg (by simp only [PANO_COLOR_GREEN]; omega),
    if_neg (by simp only [PANO_COLOR_BLUE]; omega),
    if_neg (by simp only [PANO_COLOR_BROWN]; omega),
    if_neg (by simp only [PANO_COLOR_CYAN]; omega),
    if_neg (by simp only [PANO_COLOR_YELLOW]; omega)]

/-- Witness for C3 at duty 70, colors cyan and 9 (out of range). -/
theorem pano_led_write_channels_witness :
    pano_led_write PANO_COLOR_CYAN 70 = ⟨0, 70, 70⟩ ∧
    pano_led_write 9 70 = ⟨0, 0, 0⟩ :=
  ⟨(pano_led_write_channels 70).2.2.2.2.1,
   (pano_led_write_channels 70).2.2.2.2.2.2 9 (by decide)⟩

/-- Claim C5: when the elapsed time since `start_ms` at a main-loop
iteration is at most 15 minutes, the power-control step of that
iteration changes nothing — `start_ms`, the LED outputs, and the
sleep/wake state are untouched and no sleep transition happens. -/
theorem power_step_within_timeout (s : DeviceState) (now_ms wake_ms : Nat)
    (pir_high : Bool)
    (h : elapsed_ms now_ms s.start_ms ≤ SLEEP_TIMEOUT_MS) :
    power_step s now_ms pir_high wake_ms = { state := s, slept := false } := by
  unfold power_step
  rw [if_neg (by omega)]

/-- Witness for C5: elapsed 1000 ms with the PIR high. -/
theorem power_step_within_timeout_witness :
    power_step ⟨0, 1, 2, 3, 4⟩ 1000 true 5 =
      { state := ⟨0, 1, 2, 3, 4⟩, slept := false } :=
  power_step_within_timeout ⟨0, 1, 2, 3, 4⟩ 1000 5 true (by decide)

/-- Claim C6: when the elapsed time since `start_ms` exceeds 15 minutes
and the sensor pin reads active (high), the power-control step refreshes
`start_ms` to the current time, performs no sleep transition, and leaves
every LED output unchanged. -/
theorem power_step_refresh (s : DeviceState) (now_ms wake_ms : Nat)
    (h : SLEEP_TIMEOUT_MS < elapsed_ms now_ms s.start_ms) :
    power_step s now_ms true wake_ms =
      { state := { s with start_ms := now_ms % U32 }, slept := false } := by
  unfold power_step
  rw [if_pos h, if_neg (by simp)]

/-- Witness for C6 at elapsed 1000000 ms > 900000 ms. -/
theorem power_step_refresh_witness :
    power_step ⟨0, 1, 2, 3, 4⟩ 1000000 true 5 =
      { state := ⟨1000000, 1, 2, 3, 4⟩, slept := false } :=
  power_step_refresh ⟨0, 1, 2, 3, 4⟩ 1000000 5 (by decide)

/-- Claim C2: when the elapsed time since `start_ms` exceeds 15 minutes
and the sensor pin reads inactive (low), the power-control step forces
all four LED outputs (three pano channels and the house LED) low,
performs the sleep transition into low-power standby, and after the
sensor interrupt wakes the core refreshes `start_ms` to the current
time before resuming. -/
theorem power_step_sleep (s : DeviceState) (now_ms wake_ms : Nat)
    (h : SLEEP_TIMEOUT_MS < elapsed_ms now_ms s.start_ms) :
    power_step s now_ms false wake_ms =
      { state := { start_ms := wake_ms % U32, ledR := 0, ledG := 0,
                   ledB := 0, ledHouse := 0 },
        slept := true } := by
  unfold power_step deep_sleep
  rw [if_pos h, if_pos rfl]

/-- Witness for C2 at elapsed 1000000 ms > 900000 ms, wake at 2000000. -/
theorem power_step_sleep_witness :
    power_step ⟨0, 1, 2, 3, 4⟩ 1000000 false 2000000 =
      { state := { start_ms := 2000000, ledR := 0, ledG := 0,
                   ledB := 0, ledHouse := 0 },
        slept := true } :=
  power_step_sleep ⟨0, 1, 2, 3, 4⟩ 1000000 2000000 (by decide)

/-- Claim C7: advancing the color six consecutive times from any value
of the six-color enumeration yields the starting color, and the advance
step visits the fixed order red, green, blue, brown, cyan, yellow,
wrapping back to red after yellow. -/
theorem loop_advance_color_cycle :
    (∀ c : Nat, c < PANO_COLOR_COUNT → loop_advance_color^[6] c = c) ∧
    loop_advance_color PANO_COLOR_RED = PANO_COLOR_GREEN ∧
    loop_advance_color PANO_COLOR_GREEN = PANO_COLOR_BLUE ∧
    loop_advance_color PANO_COLOR_BLUE = PANO_COLOR_BROWN ∧
    loop_advance_color PANO_COLOR_BROWN = PANO_COLOR_CYAN ∧
    loop_advance_color PANO_COLOR_CYAN = PANO_COLOR_YELLOW ∧
    loop_advance_color PANO_COLOR_YELLOW = PANO_COLOR_RED := by
  exact ⟨by decide, by decide, by decide, by decide, by decide, by decide, by decide⟩

/-- Witness for C7 starting from brown. -/
theorem loop_advance_color_cycle_witness :
    loop_advance_color^[6] PANO_COLOR_BROWN = PANO_COLOR_BROWN :=
  loop_advance_color_cycle.1 PANO_COLOR_BROWN (by decide)

/-- Claim C9: the duty-increment computation of `pano_led_pulse` divides
by the computed step count with no zero guard, so it is well defined
only under the precondition that the duration is at least 10 ms: for
any duration below 10 ms the step count truncates to 0 and
`PANO_LED_DUTY_CYCLE / steps` is a division by zero (undefined
behaviour, embedded as `none`), making the whole pulse undefined when
either duration is below 10 ms. The precondition is necessary; it is
not sufficient, because the 16-bit narrowing of the step count
reintroduces the division by zero at some larger durations (see
`pulse_steps_wrap`). -/
theorem pulse_increment_division_by_zero :
    (∀ d : Nat, d < 10 → pulse_steps d = 0 ∧ pulse_increment d = none) ∧
    (∀ d : Nat, pulse_increment d ≠ none → 10 ≤ d) ∧
    (∀ fuel on_ms off_ms : Nat, on_ms < 10 ∨ off_ms < 10 →
      pano_led_pulse fuel on_ms off_ms = none) := by
  have key : ∀ d : Nat, d < 10 → pulse_steps d = 0 ∧ pulse_increment d = none := by
    intro d hd
    have h0 : d % U32 / step_delay_ms = 0 := by
      simp only [U32, step_delay_ms]
      omega
    have hs : pulse_steps d = 0 := by
      simp [pulse_steps, toInt16, h0, U16]
    exact ⟨hs, by simp [pulse_increment, hs]⟩
  refine ⟨key, ?_, ?_⟩
  · intro d hne
    by_contra hlt
    push_neg at hlt
    exact hne (key d hlt).2
  · intro fuel on_ms off_ms hlt
    unfold pano_led_pulse
    rcases hlt with hlt | hlt
    · rw [(key on_ms hlt).2]
    · rw [(key off_ms hlt).2]
      rcases pulse_increment on_ms with _ | iu <;> rfl

/-- Witness for C9 at durations 5 ms and 200 ms. -/
theorem pulse_increment_division_by_zero_witness :
    (pulse_steps 5 = 0 ∧ pulse_increment 5 = none) ∧
    (10 : Nat) ≤ 200 ∧
    pano_led_pulse 30 200 5 = none :=
  ⟨pulse_increment_division_by_zero.1 5 (by decide),
   pulse_increment_division_by_zero.2.1 200 (by decide),
   pulse_increment_division_by_zero.2.2 30 200 5 (Or.inr (by decide))⟩

/-- Claim C1 (counterexample): `pulse(color, 200, 200)` does not issue
20 + 20 duty-cycle writes ending at duty 0; it issues 48 writes in
total (24 per ramp) and the last duty written is 1. -/
theorem pano_led_pulse_200_200_not_as_claimed :
    ((pano_led_pulse 25 200 200).map fun tr => (writesOf tr).length) = some 48 ∧
    ((pano_led_pulse 25 200 200).bind fun tr => (writesOf tr).getLast?) = some 1 ∧
    ¬(((pano_led_pulse 25 200 200).map fun tr => (writesOf tr).length) = some 40 ∧
      ((pano_led_pulse 25 200 200).bind fun tr => (writesOf tr).getLast?) = some 0) := by
  decide

/-- Claim C1 (amended): `pulse(color, 200, 200)` computes duty increment
3 for both ramps and issues exactly 24 duty-cycle steps ascending
(0, 3, ..., 69), then exactly 24 descending (70, 67, ..., 1), each write
followed by a 10 ms wait; the last duty value written is 1. The trace is
the same for every fuel that completes the loops. -/
theorem pano_led_pulse_200_200_trace :
    pulse_increment 200 = some 3 ∧
    pano_led_pulse 25 200 200 = some pulse200Trace ∧
    (writesOf pulse200Trace).length = 48 ∧
    (writesOf pulse200Trace).getLast? = some 1 ∧
    (∀ fuel : Nat, 25 ≤ fuel → pano_led_pulse fuel 200 200 = some pulse200Trace) ∧
    (∀ (fuel : Nat) (tr : List PulseEv),
      pano_led_pulse fuel 200 200 = some tr → tr = pulse200Trace) := by
  have hinc : pulse_increment 200 = some 3 := by decide
  have ha : ascLoop 25 3 0 =
      some ((List.range 24).flatMap fun n =>
        [PulseEv.write (3 * (n : Int)), PulseEv.wait 10]) := by
    decide
  have hb : descLoop 25 3 (PANO_LED_DUTY_CYCLE : Int) =
      some ((List.range 24).flatMap fun n =>
        [PulseEv.write (70 - 3 * (n : Int)), PulseEv.wait 10]) := by
    decide
  refine ⟨hinc, ?_, by decide, by decide, ?_, ?_⟩
  · exact pano_led_pulse_eq_some 25 200 200 3 3 hinc hinc _ _ ha hb
  · intro fuel hf
    exact pano_led_pulse_eq_some fuel 200 200 3 3 hinc hinc _ _
      (ascLoop_mono 25 fuel 3 0 _ hf ha)
      (descLoop_mono 25 fuel 3 (PANO_LED_DUTY_CYCLE : Int) _ hf hb)
  · intro fuel tr h
    obtain ⟨iu, idn, up, down, hu, hd, hup, hdown, heq⟩ :=
      pano_led_pulse_isSome_inv fuel 200 200 (by rw [h]; rfl)
    rw [hinc] at hu hd
    cases Option.some.inj hu
    cases Option.some.inj hd
    have hu2 := ascLoop_det fuel 25 3 0 up _ hup ha
    have hd2 := descLoop_det fuel 25 3 (PANO_LED_DUTY_CYCLE : Int) down _ hdown hb
    rw [heq] at h
    cases Option.some.inj h
    rw [hu2, hd2]
    rfl

/-- Witness for the amended C1: fuel 40 also completes and yields the
same trace. -/
theorem pano_led_pulse_200_200_trace_witness :
    pano_led_pulse 40 200 200 = some pulse200Trace :=
  pano_led_pulse_200_200_trace.2.2.2.2.1 40 (by decide)

/-- Claim C4 (counterexample): duration 705 ms exceeds 700 ms, yet the
step count is 70 — not exceeding the maximum duty 70 — the increment is
1, not 0, and ramp loops with increment 1 complete: "duration > 700 ms"
does not characterize the degenerate case. -/
theorem pulse_increment_705_not_degenerate :
    700 < 705 ∧
    pulse_steps 705 = 70 ∧
    pulse_increment 705 = some 1 ∧
    pulse_increment 705 ≠ some 0 ∧
    (ascLoop 72 1 0).isSome ∧
    (descLoop 72 1 (PANO_LED_DUTY_CYCLE : Int)).isSome := by
  decide

/-- Claim C4 (amended): in `pano_led_pulse` the step count is the
truncating `uint32_t` quotient duration / 10 narrowed to the 16-bit
`int` of the target, and the duty increment is the maximum duty 70
divided by that step count with C truncating division; below the
16-bit wrap of the step count (durations under 327680 ms) the step
count exceeds the maximum duty exactly when the duration is at least
710 ms; whenever the step count exceeds the maximum duty the increment
truncates to zero and the ramp loops never advance the duty and never
complete (for any fuel), so `pano_led_pulse` completes only when both
computed increments are nonzero (indeed positive). -/
theorem pano_led_pulse_degenerate :
    (∀ d : Nat, pulse_steps d = toInt16 (d % U32 / step_delay_ms)) ∧
    (∀ d : Nat, pulse_steps d ≠ 0 →
      pulse_increment d =
        some (Int.tdiv (PANO_LED_DUTY_CYCLE : Int) (pulse_steps d))) ∧
    (∀ d : Nat, d < 327680 →
      ((PANO_LED_DUTY_CYCLE : Int) < pulse_steps d ↔ 710 ≤ d)) ∧
    (∀ d : Nat, (PANO_LED_DUTY_CYCLE : Int) < pulse_steps d →
      pulse_increment d = some 0) ∧
    (∀ fuel : Nat, ascLoop fuel 0 0 = none) ∧
    (∀ fuel : Nat, descLoop fuel 0 (PANO_LED_DUTY_CYCLE : Int) = none) ∧
    (∀ fuel on_ms off_ms : Nat, (pano_led_pulse fuel on_ms off_ms).isSome →
      ∃ incUp incDown : Int,
        pulse_increment on_ms = some incUp ∧ 0 < incUp ∧
        pulse_increment off_ms = some incDown ∧ 0 < incDown) := by
  refine ⟨fun d => rfl, ?_, ?_, ?_, ?_, ?_, ?_⟩
  · intro d hd
    simp [pulse_increment, hd]
  · intro d hlt
    have hmod : d % U32 = d := Nat.mod_eq_of_lt (by simp only [U32]; omega)
    have hq : d % U32 / step_delay_ms = d / 10 := by
      rw [hmod]; rfl
    have hsmall : d / 10 < 2 ^ 15 := by omega
    have hs : pulse_steps d = ((d / 10 : Nat) : Int) := by
      simp only [pulse_steps, hq, toInt16, U16]
      rw [if_pos (by omega), Nat.mod_eq_of_lt (by omega)]
    rw [hs]
    simp only [PANO_LED_DUTY_CYCLE]
    omega
  · intro d hd
    have hs0 : pulse_steps d ≠ 0 := by
      intro h0
      rw [h0] at hd
      simp [PANO_LED_DUTY_CYCLE] at hd
    have hq : Int.tdiv (PANO_LED_DUTY_CYCLE : Int) (pulse_steps d) = 0 :=
      Int.tdiv_eq_zero_of_lt (by simp [PANO_LED_DUTY_CYCLE]) hd
    simp [pulse_increment, hs0, hq]
  · intro fuel
    exact ascLoop_inc_zero fuel 0 (by simp [PANO_LED_DUTY_CYCLE])
  · intro fuel
    exact descLoop_inc_zero fuel (PANO_LED_DUTY_CYCLE : Int)
      (by simp [PANO_LED_DUTY_CYCLE])
  · intro fuel on_ms off_ms h
    obtain ⟨incUp, incDown, up, down, hu, hd, hup, hdown, _⟩ :=
      pano_led_pulse_isSome_inv fuel on_ms off_ms h
    refine ⟨incUp, incDown, hu, ?_, hd, ?_⟩
    · by_contra hpos
      push_neg at hpos
      rw [ascLoop_inc_nonpos fuel incUp hpos 0 (by simp [PANO_LED_DUTY_CYCLE])] at hup
      cases hup
    · by_contra hpos
      push_neg at hpos
      rw [descLoop_inc_nonpos fuel incDown hpos (PANO_LED_DUTY_CYCLE : Int)
        (by simp [PANO_LED_DUTY_CYCLE])] at hdown
      cases hdown

/-- Witness for the amended C4: the degenerate bound at 710 ms, the
never-completing zero-increment loop, and a completing pulse whose
increments are both positive. -/
theorem pano_led_pulse_degenerate_witness :
    ((PANO_LED_DUTY_CYCLE : Int) < pulse_steps 710 ↔ 710 ≤ 710) ∧
    pulse_increment 710 = some 0 ∧
    ascLoop 5 0 0 = none ∧
    (∃ incUp incDown : Int,
      pulse_increment 100 = some incUp ∧ 0 < incUp ∧
      pulse_increment 100 = some incDown ∧ 0 < incDown) :=
  ⟨pano_led_pulse_degenerate.2.2.1 710 (by decide),
   pano_led_pulse_degenerate.2.2.2.1 710 (by decide),
   pano_led_pulse_degenerate.2.2.2.2.1 5,
   pano_led_pulse_degenerate.2.2.2.2.2.2 15 100 100 (by decide)⟩

/-- Claim C10: whenever `pano_led_pulse` runs with both computed duty
increments positive and completes, every duty value it passes to
`pano_led_write` lies in the closed range 0 to `PANO_LED_DUTY_CYCLE`
(70): the configured maximum brightness is never exceeded on either
ramp, although the truncated increment need not divide 70 evenly. -/
theorem pano_led_pulse_duty_in_range (fuel on_ms off_ms incUp incDown : Nat)
    (hu : pulse_increment on_ms = some incUp) (hupos : 0 < incUp)
    (hd : pulse_increment off_ms = some incDown) (hdpos : 0 < incDown)
    (tr : List PulseEv) (h : pano_led_pulse fuel on_ms off_ms = some tr) :
    ∀ x ∈ writesOf tr, 0 ≤ x ∧ x ≤ (PANO_LED_DUTY_CYCLE : Int) := by
  obtain ⟨iu, idn, up, down, hu2, hd2, hupL, hdownL, heq⟩ :=
    pano_led_pulse_isSome_inv fuel on_ms off_ms (by rw [h]; rfl)
  rw [hu] at hu2
  rw [hd] at hd2
  cases Option.some.inj hu2
  cases Option.some.inj hd2
  rw [heq] at h
  cases Option.some.inj h
  intro x hx
  simp only [writesOf, List.filterMap_append] at hx
  rcases List.mem_append.mp hx with hx | hx
  · have := ascLoop_writes_bound fuel _ 0 up (Int.ofNat_nonneg incUp) hupL x
      (by simpa [writesOf] using hx)
    exact ⟨this.1, this.2⟩
  · have := descLoop_writes_bound fuel _ (PANO_LED_DUTY_CYCLE : Int) down
      (Int.ofNat_nonneg incDown) hdownL x (by simpa [writesOf] using hx)
    exact ⟨this.1, this.2⟩

/-- Witness for C10: in the completed pulse at 100 ms / 100 ms
(increment 7 on both ramps) the written duty 63 is within 0..70. -/
theorem pano_led_pulse_duty_in_range_witness :
    0 ≤ (63 : Int) ∧ (63 : Int) ≤ (PANO_LED_DUTY_CYCLE : Int) :=
  pano_led_pulse_duty_in_range 15 100 100 7 7 (by decide) (by decide) (by decide)
    (by decide)
    (((List.range 11).flatMap fun n => [PulseEv.write (7 * (n : Int)), PulseEv.wait 10]) ++
     ((List.range 11).flatMap fun n => [PulseEv.write (70 - 7 * (n : Int)), PulseEv.wait 10]))
    (by decide) 63 (by decide)

/-- Claim C8: whenever the hardware reports enable-ready (and the timer
is not already enabled), `house_led_pwm_start` performs exactly this
sequence of register effects and no other: clear the output override in
CTRLC, unlock the protected fault-control register via the CPU
protected-write sequence (CCP), enable the waveform output channel A in
FAULTCTRL, busy-wait on the ENRDY status bit (changing nothing), and
only then set the timer enable bit in CTRLA; the enable bit is never
set in any state before the enable-ready wait has succeeded. -/
theorem house_led_pwm_start_order (s : TcdRegs)
    (hrdy : s.status &&& TCD_ENRDY_bm ≠ 0)
    (hen : s.ctrla &&& TCD_ENABLE_bm = 0) :
    ∃ tr : List TcdRegs,
      tcd_run s house_led_pwm_start_ops = some tr ∧
      tr.length = 5 ∧
      tr.get? 0 = some { s with ctrlc := s.ctrlc &&& (0xFF ^^^ TCD_CMPOVR_bm) } ∧
      tr.get? 1 = some { s with ctrlc := s.ctrlc &&& (0xFF ^^^ TCD_CMPOVR_bm),
                                ccp := CCP_IOREG_gc } ∧
      tr.get? 2 = some { s with ctrlc := s.ctrlc &&& (0xFF ^^^ TCD_CMPOVR_bm),
                                ccp := CCP_IOREG_gc,
                                faultctrl := TCD_CMPAEN_bm } ∧
      tr.get? 3 = tr.get? 2 ∧
      tr.get? 4 = some { s with ctrlc := s.ctrlc &&& (0xFF ^^^ TCD_CMPOVR_bm),
                                ccp := CCP_IOREG_gc,
                                faultctrl := TCD_CMPAEN_bm,
                                ctrla := s.ctrla ||| TCD_ENABLE_bm } ∧
      (∀ (i : Nat) (t : TcdRegs), i < 4 → tr.get? i = some t →
        t.ctrla &&& TCD_ENABLE_bm = 0) ∧
      (∀ t : TcdRegs, tr.get? 4 = some t → t.ctrla &&& TCD_ENABLE_bm ≠ 0) ∧
      house_led_pwm_start_ops.get? 3 = some TcdOp.waitEnRdy ∧
      house_led_pwm_start_ops.get? 4 = some TcdOp.setTimerEnable := by
  have hbit : (s.ctrla ||| TCD_ENABLE_bm) &&& TCD_ENABLE_bm ≠ 0 := by
    have h1 : (s.ctrla ||| 1) % 2 = 1 :=
      Nat.mod_two_eq_one_iff_testBit_zero.mpr (by simp [Nat.testBit_lor])
    simp only [TCD_ENABLE_bm, Nat.and_one_is_mod]
    omega
  have hrun : tcd_run s house_led_pwm_start_ops = some
      [{ s with ctrlc := s.ctrlc &&& (0xFF ^^^ TCD_CMPOVR_bm) },
       { s with ctrlc := s.ctrlc &&& (0xFF ^^^ TCD_CMPOVR_bm),
                ccp := CCP_IOREG_gc },
       { s with ctrlc := s.ctrlc &&& (0xFF ^^^ TCD_CMPOVR_bm),
                ccp := CCP_IOREG_gc, faultctrl := TCD_CMPAEN_bm },
       { s with ctrlc := s.ctrlc &&& (0xFF ^^^ TCD_CMPOVR_bm),
                ccp := CCP_IOREG_gc, faultctrl := TCD_CMPAEN_bm },
       { s with ctrlc := s.ctrlc &&& (0xFF ^^^ TCD_CMPOVR_bm),
                ccp := CCP_IOREG_gc, faultctrl := TCD_CMPAEN_bm,
                ctrla := s.ctrla ||| TCD_ENABLE_bm }] := by
    simp only [house_led_pwm_start_ops, tcd_run, tcd_step, hrdy, ne_eq,
      not_false_eq_true, if_true, ite_true]
    rfl
  refine ⟨_, hrun, rfl, rfl, rfl, rfl, rfl, rfl, ?_, ?_, rfl, rfl⟩
  · intro i t hi ht
    interval_cases i <;>
      (simp only [List.get?] at ht; cases Option.some.inj ht; exact hen)
  · intro t ht
    simp only [List.get?] at ht
    cases Option.some.inj ht
    exact hbit

/-- Witness for C8: concrete registers with ENRDY reported and the
timer initially disabled. -/
theorem house_led_pwm_start_order_witness :
    ∃ tr : List TcdRegs,
      tcd_run ⟨0, 0, 0, 0, 1⟩ house_led_pwm_start_ops = some tr ∧
      tr.length = 5 ∧
      tr.get? 0 = some ⟨0, 0, 0, 0, 1⟩ ∧
      tr.get? 1 = some ⟨0, 0, 0, 216, 1⟩ ∧
      tr.get? 2 = some ⟨0, 0, 16, 216, 1⟩ ∧
      tr.get? 3 = tr.get? 2 ∧
      tr.get? 4 = some ⟨1, 0, 16, 216, 1⟩ ∧
      (∀ (i : Nat) (t : TcdRegs), i < 4 → tr.get? i = some t →
        t.ctrla &&& TCD_ENABLE_bm = 0) ∧
      (∀ t : TcdRegs, tr.get? 4 = some t → t.ctrla &&& TCD_ENABLE_bm ≠ 0) ∧
      house_led_pwm_start_ops.get? 3 = some TcdOp.waitEnRdy ∧
      house_led_pwm_start_ops.get? 4 = some TcdOp.setTimerEnable :=
  house_led_pwm_start_order ⟨0, 0, 0, 0, 1⟩ (by decide) (by decide)

end SssOrnament
